import Mathlib

/-!
Shallow embedding of the four GlusterFS state reconcilers from
`salt/states/glusterfs.py`: `peered`, `volume_present` (with its deprecated
alias `created`), `started` and `add_volume_bricks`.

Each reconciler is embedded as a pure function of its Python arguments plus
an environment record holding the responses that the external collaborators
(`socket.gethostbyname`, `network.ip_addrs`, `glusterfs.list_peers`,
`glusterfs.list_volumes`, `glusterfs.info`, the mutating actions, and the
global `__opts__["test"]` flag) would give, in the order the source consults
them.  Every reconciler returns the final `ret` dict (or the Python
exception that escapes) together with the ordered list of external calls it
performed, so that purity and re-query properties can be stated on the call
log.
-/

namespace Gluster

/-- Value of the `changes` entry of a salt return dict.  The source stores
either the empty dict, a dict of two string lists (peer lists, volume-name
lists, brick-path lists), or a dict of two plain strings (the volume
lifecycle strings "stopped"/"started"). -/
inductive Changes where
  | empty : Changes
  | lists (old new : List String) : Changes
  | strs (old new : String) : Changes
deriving DecidableEq, Repr

/-- Return dict of a salt state function.  `result` is `some true`,
`some false` or `none` (Python `True` / `False` / `None`).  The field
`change` models the extra, misspelled dict key that the success branch of
`started` writes (`ret["change"] = ...` at line 229 of the source); every
other code path leaves it empty. -/
structure Ret where
  name : String
  changes : Changes
  change : Changes
  comment : String
  result : Option Bool
deriving DecidableEq, Repr

/-- Python exceptions that can escape a reconciler: `socket.gaierror` from
`socket.gethostbyname`, and `KeyError` from subscripting the mapping
returned by `glusterfs.info` with a missing volume name. -/
inductive PyErr where
  | gaierror : PyErr
  | keyError : PyErr
deriving DecidableEq, Repr

/-- One external call performed by a reconciler, with the arguments the
source passes. -/
inductive Call where
  | gethostbyname (n : String) : Call
  | ipAddrs : Call
  | listPeers : Call
  | peerAdd (n : String) : Call
  | listVolumes : Call
  | createVolume (n : String) (bricks : List String)
      (stripe replica device_vg : Bool) (transport : String)
      (start force : Bool) : Call
  | info : Call
  | startVolume (n : String) : Call
  | addBricks (n : String) (bricks : List String) : Call
deriving DecidableEq, Repr

/-- Calls that mutate live state (the `CommandExecutor` actions of the
spec). -/
def Call.isAction : Call → Bool
  | .peerAdd _ => true
  | .createVolume _ _ _ _ _ _ _ _ => true
  | .startVolume _ => true
  | .addBricks _ _ => true
  | _ => false

/-- Calls that only read live state (the `QueryProvider` accessors plus the
hostname/address lookups). -/
def Call.isQuery : Call → Bool
  | .gethostbyname _ => true
  | .ipAddrs => true
  | .listPeers => true
  | .listVolumes => true
  | .info => true
  | _ => false

/-- Status vocabulary of the spec, derived from a returned dict exactly as
the orchestrator reads salt returns: `result = None` is `WouldChange`,
`result = False` is `Failed`, `result = True` is `Converged` when `changes`
is non-empty and `Unchanged` when it is empty. -/
inductive Status where
  | Converged : Status
  | WouldChange : Status
  | Unchanged : Status
  | Failed : Status
deriving DecidableEq, Repr

/-- Status of a return dict, per the mapping above. -/
def Ret.status (r : Ret) : Status :=
  match r.result with
  | none => .WouldChange
  | some false => .Failed
  | some true => if r.changes = .empty then .Unchanged else .Converged

/-- Initial `ret` dict built at the top of every reconciler:
`{name: name, changes: {}, comment: "", result: False}`. -/
def mkRet (name : String) : Ret :=
  { name := name, changes := .empty, change := .empty, comment := "",
    result := some false }

/-- Modelled from the spec: `salt.utils.cloud.check_name` is not under
src/.  Per the spec, resource names are restricted to the character set
`[A-Za-z0-9._-]`, and the source treats a truthy return of `check_name` as
"the name contains invalid characters".  `check_name` therefore returns
`true` exactly when the name holds a character outside that set. -/
def check_name (name : String) : Bool :=
  name.toList.any fun c => !(c.isAlphanum || c == '.' || c == '_' || c == '-')

/-- Payload of a reconciler run: the returned dict (or escaped exception)
and the ordered log of external calls. -/
abbrev Run := Except PyErr Ret × List Call

/-- Returned dict of a run, `none` when an exception escaped. -/
def retOf (p : Run) : Option Ret :=
  match p.1 with
  | .ok r => some r
  | .error _ => none

/-- Suffix of a call log strictly after its last mutating action (the whole
log when no action occurs). -/
def afterLastAction (log : List Call) : List Call :=
  (log.reverse.takeWhile fun c => !c.isAction).reverse

/-- A log confirms by re-query when some read of live state happens after
the last mutating action. -/
def confirmedByRequery (log : List Call) : Bool :=
  (afterLastAction log).any fun c => c.isQuery

/-- Environment of one `peered` call: `resolve` is the outcome of
`socket.gethostbyname name` (`none` means the lookup raises
`socket.gaierror`), `ipAddrs` the result of `network.ip_addrs`, `peers1`
and `peers2` the results of the first and second `glusterfs.list_peers`
query, `test` the global `__opts__["test"]` flag, and `peerOk` the boolean
returned by the `glusterfs.peer` action. -/
structure PeeredEnv where
  resolve : Option String
  ipAddrs : List String
  peers1 : List String
  test : Bool
  peerOk : Bool
  peers2 : List String
deriving DecidableEq, Repr

/-- Embedding of `peered(name)` (source lines 26-88). -/
def peered (name : String) (env : PeeredEnv) : Run :=
  match env.resolve with
  | none => (.error .gaierror, [.gethostbyname name])
  | some addr =>
    if addr ∈ env.ipAddrs then
      (.ok { mkRet name with
              comment := "Peering with localhost is not needed",
              result := some true },
        [.gethostbyname name, .ipAddrs])
    else
      let log : List Call := [.gethostbyname name, .ipAddrs, .listPeers]
      if name ∈ env.peers1 then
        (.ok { mkRet name with
                comment := "Host " ++ name ++ " already peered",
                result := some true }, log)
      else if check_name name then
        (.ok { mkRet name with
                comment := "Invalid characters in peer name." }, log)
      else if env.test then
        (.ok { mkRet name with
                comment := "Peer " ++ name ++ " will be added.",
                result := none }, log)
      else
        let log := log ++ [.peerAdd name]
        if !env.peerOk then
          (.ok { mkRet name with
                  comment := "Failed to peer with " ++ name ++
                    ", please check logs for errors" }, log)
        else
          let log := log ++ [.listPeers]
          if name ∈ env.peers2 then
            (.ok { mkRet name with
                    comment := "Host " ++ name ++ " successfully peered",
                    changes := .lists env.peers1 env.peers2,
                    result := some true }, log)
          else
            (.ok { mkRet name with
                    comment := "Host " ++ name ++
                      " was successfully peered but did not appear in the list of peers" },
              log)

/-- Environment of one `volume_present` (or `created`) call: `volumes1` and
`volumes2` are the results of the first and second `glusterfs.list_volumes`
query, `test` the global `__opts__["test"]` flag, `createOk` the boolean
returned by the `glusterfs.create_volume` action, `infoStatus` the value of
`glusterfs.info()[name]["status"]` (`none` when `name` is absent from the
info mapping, in which case the subscript raises `KeyError`), and `startOk`
the boolean returned by the `glusterfs.start_volume` action. -/
structure VolEnv where
  volumes1 : List String
  test : Bool
  createOk : Bool
  volumes2 : List String
  infoStatus : Option Int
  startOk : Bool
deriving DecidableEq, Repr

/-- Start phase of `volume_present` (source lines 157-178): the
`if start:` block followed by the final `ret["result"] = True`, applied to
the `ret` dict and call log accumulated by the creation phase. -/
def vpStart (name : String) (start : Bool) (env : VolEnv) (ret : Ret)
    (log : List Call) : Run :=
  if start then
    if env.test then
      (.ok { ret with
              comment := ret.comment ++ " and will be started",
              result := none }, log)
    else
      let log := log ++ [.info]
      match env.infoStatus with
      | none => (.error .keyError, log)
      | some status =>
        if status = 1 then
          (.ok { ret with
                  result := some true,
                  comment := ret.comment ++ " and is started" }, log)
        else
          let log := log ++ [.startVolume name]
          if env.startOk then
            (.ok { ret with
                    result := some true,
                    comment := ret.comment ++ " and is now started",
                    changes :=
                      if ret.changes = .empty then .strs "stopped" "started"
                      else ret.changes }, log)
          else
            (.ok { ret with
                    comment := ret.comment ++
                      " but failed to start. Check logs for further information" },
              log)
  else
    (.ok { ret with result := some true }, log)

/-- Embedding of
`volume_present(name, bricks, stripe, replica, device_vg, transport, start, force)`
(source lines 91-178). -/
def volume_present (name : String) (bricks : List String)
    (stripe replica device_vg : Bool) (transport : String)
    (start force : Bool) (env : VolEnv) : Run :=
  if check_name name then
    (.ok { mkRet name with comment := "Invalid characters in volume name." },
      [])
  else
    let log : List Call := [.listVolumes]
    if name ∉ env.volumes1 then
      if env.test then
        (.ok { mkRet name with
                comment := "Volume " ++ name ++ " will be created" ++
                  (if start then " and started" else ""),
                result := none }, log)
      else
        let log := log ++
          [.createVolume name bricks stripe replica device_vg transport
            start force]
        if !env.createOk then
          (.ok { mkRet name with
                  comment := "Creation of volume " ++ name ++
                    " failed. Check logs for further information" }, log)
        else
          let log := log ++ [.listVolumes]
          let ret :=
            if name ∈ env.volumes2 then
              { mkRet name with
                  changes := .lists env.volumes1 env.volumes2,
                  comment := "Volume " ++ name ++ " is created" }
            else mkRet name
          vpStart name start env ret log
    else
      vpStart name start env
        { mkRet name with
            comment := "Volume " ++ name ++ " already exists" } log

/-- Embedding of `created(*args, **kwargs)` (source lines 181-190): emits a
deprecation warning (a log-only effect, outside the return value and the
collaborator call log) and delegates to `volume_present` with the same
arguments. -/
def created (name : String) (bricks : List String)
    (stripe replica device_vg : Bool) (transport : String)
    (start force : Bool) (env : VolEnv) : Run :=
  volume_present name bricks stripe replica device_vg transport start force
    env

/-- Environment of one `started` call: `infoStatus` is
`glusterfs.info()[name]["status"]` (`none` when `name` is absent from the
mapping, which the source detects with a membership test before
subscripting), `test` the global `__opts__["test"]` flag, and `startOk` the
boolean returned by the `glusterfs.start_volume` action. -/
structure StartedEnv where
  infoStatus : Option Int
  test : Bool
  startOk : Bool
deriving DecidableEq, Repr

/-- Embedding of `started(name)` (source lines 193-234).  The success
branch of the start action writes the lifecycle change under the misspelled
dict key `change` (line 229) and leaves `changes` empty; the failure branch
builds its comment from `"Failed to start volume".format(name)`, a format
string with no placeholder, so the name does not appear in it. -/
def started (name : String) (env : StartedEnv) : Run :=
  let log : List Call := [.info]
  match env.infoStatus with
  | none =>
    (.ok { mkRet name with
            comment := "Volume " ++ name ++ " does not exist" }, log)
  | some status =>
    if status = 1 then
      (.ok { mkRet name with
              comment := "Volume " ++ name ++ " is already started",
              result := some true }, log)
    else if env.test then
      (.ok { mkRet name with
              comment := "Volume " ++ name ++ " will be started",
              result := none }, log)
    else
      let log := log ++ [.startVolume name]
      if env.startOk then
        (.ok { mkRet name with
                comment := "Volume " ++ name ++ " is started",
                change := .strs "stopped" "started",
                result := some true }, log)
      else
        (.ok { mkRet name with comment := "Failed to start volume" }, log)

/-- Environment of one `add_volume_bricks` call: `info1` is the status and
brick-path list of volume `name` in the first `glusterfs.info` query
(`none` when the volume is absent), `test` the global `__opts__["test"]`
flag (which this reconciler never consults, mirroring the source), `addOk`
the boolean returned by the `glusterfs.add_volume_bricks` action, and
`info2` the brick-path list of the volume in the post-action info query
(`none` when the volume is absent there, in which case the subscript raises
`KeyError`). -/
structure BricksEnv where
  info1 : Option (Int × List String)
  test : Bool
  addOk : Bool
  info2 : Option (List String)
deriving DecidableEq, Repr

/-- Embedding of `add_volume_bricks(name, bricks)` (source lines 237-291).
The no-op test `not (set(bricks) - set(current_bricks))` is the statement
that every requested brick path already occurs among the current brick
paths. -/
def add_volume_bricks (name : String) (bricks : List String)
    (env : BricksEnv) : Run :=
  let log : List Call := [.info]
  match env.info1 with
  | none =>
    (.ok { mkRet name with
            comment := "Volume " ++ name ++
              " does not exist, cannot add bricks into it" }, log)
  | some (status, current) =>
    if status ≠ 1 then
      (.ok { mkRet name with
              comment := "Volume " ++ name ++
                " is not started, cannot add bricks into it" }, log)
    else if ∀ b ∈ bricks, b ∈ current then
      (.ok { mkRet name with
              comment := "Bricks already added in volume " ++ name,
              result := some true }, log)
    else
      let log := log ++ [.addBricks name bricks]
      if env.addOk then
        let log := log ++ [.info]
        match env.info2 with
        | none => (.error .keyError, log)
        | some newBricks =>
          (.ok { mkRet name with
                  comment := "Bricks successfully added to volume " ++ name,
                  changes := .lists current newBricks,
                  result := some true }, log)
      else
        (.ok { mkRet name with
                comment := "Adding bricks to volume " ++ name ++ " failed" },
          log)

/-- C1 counterexample: when `volume_present` creates the volume (recording
the creation change set) and the requested start then fails, the returned
dict has `result = False` (`Failed`) while `changes` is the non-empty
creation change set — refuting the claim that `changes` is non-empty only
on `Converged` results. -/
theorem volume_present_failed_with_changes_cex :
    (retOf (volume_present "v1" [] false false false "tcp" true false
        ⟨[], false, true, ["v1"], some 0, false⟩)).map Ret.status
      = some Status.Failed
  ∧ (retOf (volume_present "v1" [] false false false "tcp" true false
        ⟨[], false, true, ["v1"], some 0, false⟩)).map Ret.changes
      = some (Changes.lists [] ["v1"]) := by
  exact ⟨rfl, rfl⟩

/-- C2 counterexample: `add_volume_bricks` never consults the
`__opts__["test"]` flag, so with `test = true` it still invokes the
add-bricks action and returns a `Converged` result — refuting dry-run
purity for the fourth reconciler. -/
theorem add_volume_bricks_dryrun_cex :
    (BricksEnv.test ⟨some (1, ["h1:/a"]), true, true,
        some ["h1:/a", "h2:/b"]⟩ = true)
  ∧ (Call.addBricks "v1" ["h2:/b"]
      ∈ (add_volume_bricks "v1" ["h2:/b"]
          ⟨some (1, ["h1:/a"]), true, true, some ["h1:/a", "h2:/b"]⟩).2)
  ∧ ((retOf (add_volume_bricks "v1" ["h2:/b"]
        ⟨some (1, ["h1:/a"]), true, true,
          some ["h1:/a", "h2:/b"]⟩)).map Ret.status
      = some Status.Converged) := by
  refine ⟨rfl, ?_, rfl⟩
  simp [add_volume_bricks]

/-- C3: on an existing, stopped volume with dry-run off and a successful
start action, `started` stores the lifecycle change set under the
misspelled dict key `change` and leaves the `changes` field empty, so the
result reads as `Unchanged` rather than `Converged` with
`changes = (old: stopped, new: started)`. -/
theorem started_change_key_bug :
    (retOf (started "v1" ⟨some 0, false, true⟩)).map Ret.changes
      = some Changes.empty
  ∧ (retOf (started "v1" ⟨some 0, false, true⟩)).map Ret.change
      = some (Changes.strs "stopped" "started")
  ∧ (retOf (started "v1" ⟨some 0, false, true⟩)).map Ret.status
      = some Status.Unchanged
  ∧ (retOf (started "v1" ⟨some 0, false, true⟩)).map Ret.result
      = some (some true) := by
  exact ⟨rfl, rfl, rfl, rfl⟩

/-- C4 counterexample: `peered` on a hostname whose lookup fails propagates
`socket.gaierror` out of the reconciler instead of returning a `Result`. -/
theorem peered_gaierror_cex :
    peered "unresolvable" ⟨none, [], [], false, false, []⟩
      = (.error .gaierror, [.gethostbyname "unresolvable"]) := rfl

/-- C5 counterexample: when creation reports success but the re-queried
volume list does not contain the new volume and no start was requested,
`volume_present` falls through to the final `ret["result"] = True` and
returns `result = True` with empty changes and empty comment — an
`Unchanged`-looking success, not the `Failed` the claim requires. -/
theorem volume_present_requery_miss_cex :
    (retOf (volume_present "v1" [] false false false "tcp" false false
        ⟨[], false, true, [], some 0, false⟩)).map Ret.status
      = some Status.Unchanged
  ∧ (retOf (volume_present "v1" [] false false false "tcp" false false
        ⟨[], false, true, [], some 0, false⟩)).map Ret.result
      = some (some true)
  ∧ (retOf (volume_present "v1" [] false false false "tcp" false false
        ⟨[], false, true, [], some 0, false⟩)).map Ret.comment
      = some "" := by
  exact ⟨rfl, rfl, rfl⟩

/-- C6 counterexample: on a pre-existing stopped volume with
`start = true`, a successful start action makes `volume_present` return
`Converged` with `changes = (old: stopped, new: started)` although the call
log ends with the start action — no confirming re-query follows the
mutation. -/
theorem volume_present_converged_without_requery_cex :
    (retOf (volume_present "v1" [] false false false "tcp" true false
        ⟨["v1"], false, true, ["v1"], some 0, true⟩)).map Ret.status
      = some Status.Converged
  ∧ confirmedByRequery
      (volume_present "v1" [] false false false "tcp" true false
        ⟨["v1"], false, true, ["v1"], some 0, true⟩).2 = false := by
  exact ⟨rfl, rfl⟩

/-- C7 counterexample: `peered` with a malformed name performs the hostname
resolution, the local-address query and the peer-list query before its
name validation fires, so the `Failed` validation result is reached only
after live-state queries — refuting "detected before any query". -/
theorem peered_validation_after_query_cex :
    check_name "bad name" = true
  ∧ (retOf (peered "bad name" ⟨some "9.9.9.9", [], [], false, false, []⟩)).map
      Ret.comment = some "Invalid characters in peer name."
  ∧ (peered "bad name" ⟨some "9.9.9.9", [], [], false, false, []⟩).2
      = [.gethostbyname "bad name", .ipAddrs, .listPeers] := by
  exact ⟨rfl, rfl, rfl⟩

/-- C8 counterexample: with `start = true` and dry-run on, an already
existing and already started volume (`infoStatus = 1`) still yields
`result = None` ("will be started") and the volume status is never queried
— the dry-run branch is taken before the already-started check, not
after. -/
theorem volume_present_dryrun_before_status_cex :
    (retOf (volume_present "v1" [] false false false "tcp" true false
        ⟨["v1"], true, false, [], some 1, false⟩)).map Ret.status
      = some Status.WouldChange
  ∧ (retOf (volume_present "v1" [] false false false "tcp" true false
        ⟨["v1"], true, false, [], some 1, false⟩)).map Ret.comment
      = some "Volume v1 already exists and will be started"
  ∧ Call.info ∉ (volume_present "v1" [] false false false "tcp" true false
        ⟨["v1"], true, false, [], some 1, false⟩).2 := by
  refine ⟨rfl, rfl, ?_⟩
  decide

/-- C10: the deprecated `created` entry point returns exactly the result of
`volume_present` on the same arguments and environment. -/
theorem created_delegates_to_volume_present (name : String)
    (bricks : List String) (stripe replica device_vg : Bool)
    (transport : String) (start force : Bool) (env : VolEnv) :
    created name bricks stripe replica device_vg transport start force env
      = volume_present name bricks stripe replica device_vg transport start
          force env := rfl

/-- C9: on an existing started volume with brick set `current`: when every
requested brick path is already in `current`, `add_volume_bricks` returns
`Unchanged` without invoking any mutating action; otherwise, when the add
action succeeds and the post-action info query reports a brick set
`newBricks` containing both `current` and the requested bricks (the effect
a successful add has on the live volume), the returned result is
`Converged` and the set reported in `changes.new` is exactly `newBricks`, a
superset of both `current` and `bricks`. -/
theorem brick_set_monotonicity (name : String)
    (bricks current newBricks : List String) (env : BricksEnv)
    (hinfo : env.info1 = some (1, current)) :
    ((∀ b ∈ bricks, b ∈ current) →
      (retOf (add_volume_bricks name bricks env)).map Ret.status
          = some Status.Unchanged
      ∧ ∀ c ∈ (add_volume_bricks name bricks env).2, c.isAction = false)
  ∧ ((¬ ∀ b ∈ bricks, b ∈ current) → env.addOk = true →
      env.info2 = some newBricks →
      (∀ b ∈ current, b ∈ newBricks) → (∀ b ∈ bricks, b ∈ newBricks) →
      (retOf (add_volume_bricks name bricks env)).map Ret.changes
          = some (Changes.lists current newBricks)
      ∧ (retOf (add_volume_bricks name bricks env)).map Ret.status
          = some Status.Converged
      ∧ ∀ b, b ∈ current ∨ b ∈ bricks → b ∈ newBricks) := by
  constructor
  · intro hsub
    unfold add_volume_bricks
    rw [hinfo]
    simp [if_pos hsub, retOf, Ret.status, mkRet, Call.isAction]
  · intro hnot haddOk hinfo2 hcur hreq
    unfold add_volume_bricks
    rw [hinfo]
    simp [if_neg hnot, haddOk, hinfo2, retOf, Ret.status, mkRet]
    rintro b (hb | hb)
    · exact hcur b hb
    · exact hreq b hb

/-- Witness for C9 at a concrete input: volume `v1` is started with brick
`h1:/a`; requesting brick `h2:/b` is not a subset of the current set, the
add succeeds and the re-query reports both bricks, so the result is
`Converged` with `changes = (old: [h1:/a], new: [h1:/a, h2:/b])`. -/
theorem brick_set_monotonicity_witness :
    (retOf (add_volume_bricks "v1" ["h2:/b"]
        ⟨some (1, ["h1:/a"]), false, true,
          some ["h1:/a", "h2:/b"]⟩)).map Ret.changes
      = some (Changes.lists ["h1:/a"] ["h1:/a", "h2:/b"])
  ∧ (retOf (add_volume_bricks "v1" ["h2:/b"]
        ⟨some (1, ["h1:/a"]), false, true,
          some ["h1:/a", "h2:/b"]⟩)).map Ret.status
      = some Status.Converged := by
  have h := (brick_set_monotonicity "v1" ["h2:/b"] ["h1:/a"]
      ["h1:/a", "h2:/b"]
      ⟨some (1, ["h1:/a"]), false, true, some ["h1:/a", "h2:/b"]⟩ rfl).2
      (by decide) rfl rfl (by decide) (by decide)
  exact ⟨h.1, h.2.1⟩

set_option maxHeartbeats 2000000 in
/-- C1 amended: for `peered`, `started` and `add_volume_bricks`, every
returned dict has non-empty `changes` exactly when its status is
`Converged`.  For `volume_present` the equivalence holds on every path
except one: when creation succeeds (recording the creation change set) and
the requested start then fails, the `Failed` result keeps the non-empty
creation changes, so non-empty `changes` implies `Converged` or that
specific start-failure `Failed` outcome. -/
theorem changes_iff_converged_amended :
    (∀ name env r, (peered name env).1 = .ok r →
      (r.changes ≠ Changes.empty ↔ r.status = Status.Converged))
  ∧ (∀ name env r, (started name env).1 = .ok r →
      (r.changes ≠ Changes.empty ↔ r.status = Status.Converged))
  ∧ (∀ name bricks env r, (add_volume_bricks name bricks env).1 = .ok r →
      (r.changes ≠ Changes.empty ↔ r.status = Status.Converged))
  ∧ (∀ name bricks stripe replica device_vg transport start force env r,
      (volume_present name bricks stripe replica device_vg transport start
          force env).1 = .ok r →
      (r.status = Status.Converged → r.changes ≠ Changes.empty)
    ∧ (r.changes ≠ Changes.empty →
        r.status = Status.Converged
      ∨ (r.status = Status.Failed ∧ start = true ∧ env.startOk = false))) := by
  refine ⟨?_, ?_, ?_, ?_⟩
  · intro name env r h
    cases hres : env.resolve with
    | none => simp [peered, hres] at h
    | some addr =>
      simp only [peered, hres] at h
      split_ifs at h <;>
        (simp only [Except.ok.injEq] at h; subst h; simp [Ret.status, mkRet])
  · intro name env r h
    cases hinfo : env.infoStatus with
    | none =>
      simp only [started, hinfo] at h
      simp only [Except.ok.injEq] at h; subst h; simp [Ret.status, mkRet]
    | some status =>
      simp only [started, hinfo] at h
      split_ifs at h <;>
        (simp only [Except.ok.injEq] at h; subst h; simp [Ret.status, mkRet])
  · intro name bricks env r h
    cases hinfo : env.info1 with
    | none =>
      simp only [add_volume_bricks, hinfo] at h
      simp only [Except.ok.injEq] at h; subst h; simp [Ret.status, mkRet]
    | some p =>
      obtain ⟨status, current⟩ := p
      simp only [add_volume_bricks, hinfo] at h
      split_ifs at h
      case _ => simp only [Except.ok.injEq] at h; subst h
                simp [Ret.status, mkRet]
      case _ => simp only [Except.ok.injEq] at h; subst h
                simp [Ret.status, mkRet]
      case _ =>
        cases hinfo2 : env.info2 with
        | none => rw [hinfo2] at h; cases h
        | some newBricks =>
          rw [hinfo2] at h
          simp only [Except.ok.injEq] at h; subst h
          simp [Ret.status, mkRet]
      case _ => simp only [Except.ok.injEq] at h; subst h
                simp [Ret.status, mkRet]
  · intro name bricks stripe replica device_vg transport start force env r h
    cases hinfo : env.infoStatus with
    | none =>
      simp only [volume_present, vpStart, hinfo] at h
      split_ifs at h <;>
        (simp only [Except.ok.injEq] at h; subst h; simp [Ret.status, mkRet])
    | some status =>
      simp only [volume_present, vpStart, hinfo] at h
      split_ifs at h <;>
        (simp only [Except.ok.injEq] at h; subst h;
         simp_all [Ret.status, mkRet])

/-- Witness for C1 at a concrete input: the `Converged` run of `peered`
(peer `p2` added and confirmed by the second peer-list query) satisfies the
equivalence. -/
theorem changes_iff_converged_witness :
    ({ name := "p2", changes := Changes.lists [] ["p2"],
       change := Changes.empty, comment := "Host p2 successfully peered",
       result := some true } : Ret).changes ≠ Changes.empty
  ↔ ({ name := "p2", changes := Changes.lists [] ["p2"],
       change := Changes.empty, comment := "Host p2 successfully peered",
       result := some true } : Ret).status = Status.Converged :=
  changes_iff_converged_amended.1 "p2"
    ⟨some "2.2.2.2", ["1.1.1.1"], [], false, true, ["p2"]⟩
    { name := "p2", changes := Changes.lists [] ["p2"],
      change := Changes.empty, comment := "Host p2 successfully peered",
      result := some true } rfl

set_option maxHeartbeats 2000000 in
/-- C2 amended: dry-run purity holds for `peered`, `volume_present` and
`started` — with `__opts__["test"] = true` none of them records a mutating
action in its call log and none returns a `Converged` result.
`add_volume_bricks` is the exception: it never consults the test flag (see
the C2 counterexample). -/
theorem dryrun_purity_amended :
    (∀ name env, env.test = true →
      (∀ c ∈ (peered name env).2, c.isAction = false)
    ∧ ∀ r, (peered name env).1 = .ok r → r.status ≠ Status.Converged)
  ∧ (∀ name bricks stripe replica device_vg transport start force env,
      env.test = true →
      (∀ c ∈ (volume_present name bricks stripe replica device_vg transport
          start force env).2, c.isAction = false)
    ∧ ∀ r, (volume_present name bricks stripe replica device_vg transport
          start force env).1 = .ok r → r.status ≠ Status.Converged)
  ∧ (∀ name env, env.test = true →
      (∀ c ∈ (started name env).2, c.isAction = false)
    ∧ ∀ r, (started name env).1 = .ok r → r.status ≠ Status.Converged) := by
  refine ⟨?_, ?_, ?_⟩
  · intro name env htest
    refine ⟨?_, ?_⟩
    · cases hres : env.resolve with
      | none => simp [peered, hres, Call.isAction]
      | some addr =>
        simp only [peered, hres, htest]
        split_ifs <;> simp [Call.isAction, List.forall_mem_cons]
    · intro r h
      cases hres : env.resolve with
      | none => simp [peered, hres] at h
      | some addr =>
        simp only [peered, hres, htest] at h
        split_ifs at h <;>
          (simp only [Except.ok.injEq] at h; subst h;
           simp_all [Ret.status, mkRet])
  · intro name bricks stripe replica device_vg transport start force env
      htest
    refine ⟨?_, ?_⟩
    · simp only [volume_present, vpStart, htest]
      split_ifs <;> simp [Call.isAction, List.forall_mem_cons]
    · intro r h
      simp only [volume_present, vpStart, htest] at h
      split_ifs at h <;>
        (simp only [Except.ok.injEq] at h; subst h;
         simp_all [Ret.status, mkRet])
  · intro name env htest
    refine ⟨?_, ?_⟩
    · cases hinfo : env.infoStatus with
      | none => simp [started, hinfo, Call.isAction]
      | some status =>
        simp only [started, hinfo, htest]
        split_ifs <;> simp [Call.isAction, List.forall_mem_cons]
    · intro r h
      cases hinfo : env.infoStatus with
      | none =>
        simp only [started, hinfo] at h
        simp only [Except.ok.injEq] at h; subst h
        simp [Ret.status, mkRet]
      | some status =>
        simp only [started, hinfo, htest] at h
        split_ifs at h <;>
          (simp only [Except.ok.injEq] at h; subst h;
           simp_all [Ret.status, mkRet])

/-- Witness for C2 at a concrete input: `started` on a stopped volume under
dry-run performs no action (its single logged call, the info query, is not
an action) and its `WouldChange` result is not `Converged`. -/
theorem dryrun_purity_witness :
    Call.isAction Call.info = false
  ∧ ({ mkRet "v1" with
        comment := "Volume v1 will be started",
        result := none } : Ret).status ≠ Status.Converged := by
  have h := dryrun_purity_amended.2.2 "v1" ⟨some 0, true, false⟩ rfl
  exact ⟨h.1 Call.info (by simp [started]), h.2 _ rfl⟩

/-- Case enumeration of the start phase: every `vpStart` run is one of the
six source paths (no start requested; dry-run; missing info entry; already
started; start succeeded; start failed), with the exact dict and call log
each path returns. -/
theorem vpStart_run (name : String) (start : Bool) (env : VolEnv)
    (ret : Ret) (log : List Call) :
    (start = false
      ∧ vpStart name start env ret log
          = (.ok { ret with result := some true }, log))
  ∨ (start = true ∧ env.test = true
      ∧ vpStart name start env ret log
          = (.ok { ret with
                    comment := ret.comment ++ " and will be started",
                    result := none }, log))
  ∨ (start = true ∧ env.test = false ∧ env.infoStatus = none
      ∧ vpStart name start env ret log
          = (.error .keyError, log ++ [.info]))
  ∨ (start = true ∧ env.test = false ∧ env.infoStatus = some 1
      ∧ vpStart name start env ret log
          = (.ok { ret with
                    result := some true,
                    comment := ret.comment ++ " and is started" },
              log ++ [.info]))
  ∨ (∃ s, start = true ∧ env.test = false ∧ env.infoStatus = some s
      ∧ s ≠ 1 ∧ env.startOk = true
      ∧ vpStart name start env ret log
          = (.ok { ret with
                    result := some true,
                    comment := ret.comment ++ " and is now started",
                    changes :=
                      if ret.changes = .empty then .strs "stopped" "started"
                      else ret.changes },
              log ++ [.info, .startVolume name]))
  ∨ (∃ s, start = true ∧ env.test = false ∧ env.infoStatus = some s
      ∧ s ≠ 1 ∧ env.startOk = false
      ∧ vpStart name start env ret log
          = (.ok { ret with
                    comment := ret.comment ++
                      " but failed to start. Check logs for further information" },
              log ++ [.info, .startVolume name])) := by
  cases start with
  | false => exact Or.inl ⟨rfl, by simp [vpStart]⟩
  | true =>
    by_cases ht : env.test = true
    · exact Or.inr (Or.inl ⟨rfl, ht, by simp [vpStart, ht]⟩)
    · have ht' : env.test = false := by simp_all
      cases hinfo : env.infoStatus with
      | none =>
        refine Or.inr (Or.inr (Or.inl ⟨rfl, ht', rfl, ?_⟩))
        simp [vpStart, ht', hinfo]
      | some s =>
        by_cases h1 : s = 1
        · subst h1
          refine Or.inr (Or.inr (Or.inr (Or.inl ⟨rfl, ht', rfl, ?_⟩)))
          simp [vpStart, ht', hinfo]
        · by_cases hok : env.startOk = true
          · refine Or.inr (Or.inr (Or.inr (Or.inr (Or.inl
              ⟨s, rfl, ht', rfl, h1, hok, ?_⟩))))
            simp [vpStart, ht', hinfo, h1, hok]
          · have hok' : env.startOk = false := by simp_all
            refine Or.inr (Or.inr (Or.inr (Or.inr (Or.inr
              ⟨s, rfl, ht', rfl, h1, hok', ?_⟩))))
            simp [vpStart, ht', hinfo, h1, hok']

/-- Case enumeration of the creation phase: every `volume_present` run
either ends in one of the three early returns (invalid name, dry-run
creation, failed creation) or hands the accumulated dict and log to the
start phase along one of the three remaining paths (created and confirmed;
created but missing from the re-query; already existing). -/
theorem volume_present_run (name : String) (bricks : List String)
    (stripe replica device_vg : Bool) (transport : String)
    (start force : Bool) (env : VolEnv) :
    (check_name name = true
      ∧ volume_present name bricks stripe replica device_vg transport start
            force env
          = (.ok { mkRet name with
                    comment := "Invalid characters in volume name." }, []))
  ∨ (check_name name = false ∧ name ∉ env.volumes1 ∧ env.test = true
      ∧ volume_present name bricks stripe replica device_vg transport start
            force env
          = (.ok { mkRet name with
                    comment := "Volume " ++ name ++ " will be created" ++
                      (if start then " and started" else ""),
                    result := none }, [.listVolumes]))
  ∨ (check_name name = false ∧ name ∉ env.volumes1 ∧ env.test = false
      ∧ env.createOk = false
      ∧ volume_present name bricks stripe replica device_vg transport start
            force env
          = (.ok { mkRet name with
                    comment := "Creation of volume " ++ name ++
                      " failed. Check logs for further information" },
              [.listVolumes,
                .createVolume name bricks stripe replica device_vg transport
                  start force]))
  ∨ (check_name name = false ∧ name ∉ env.volumes1 ∧ env.test = false
      ∧ env.createOk = true ∧ name ∈ env.volumes2
      ∧ volume_present name bricks stripe replica device_vg transport start
            force env
          = vpStart name start env
              { mkRet name with
                  changes := .lists env.volumes1 env.volumes2,
                  comment := "Volume " ++ name ++ " is created" }
              [.listVolumes,
                .createVolume name bricks stripe replica device_vg transport
                  start force, .listVolumes])
  ∨ (check_name name = false ∧ name ∉ env.volumes1 ∧ env.test = false
      ∧ env.createOk = true ∧ name ∉ env.volumes2
      ∧ volume_present name bricks stripe replica device_vg transport start
            force env
          = vpStart name start env (mkRet name)
              [.listVolumes,
                .createVolume name bricks stripe replica device_vg transport
                  start force, .listVolumes])
  ∨ (check_name name = false ∧ name ∈ env.volumes1
      ∧ volume_present name bricks stripe replica device_vg transport start
            force env
          = vpStart name start env
              { mkRet name with
                  comment := "Volume " ++ name ++ " already exists" }
              [.listVolumes]) := by
  by_cases hc : check_name name = true
  · exact Or.inl ⟨hc, by simp [volume_present, hc]⟩
  · have hc' : check_name name = false := by simp_all
    by_cases hv : name ∈ env.volumes1
    · refine Or.inr (Or.inr (Or.inr (Or.inr (Or.inr ⟨hc', hv, ?_⟩))))
      simp [volume_present, hc', hv]
    · by_cases ht : env.test = true
      · refine Or.inr (Or.inl ⟨hc', hv, ht, ?_⟩)
        simp [volume_present, hc', hv, ht]
      · have ht' : env.test = false := by simp_all
        by_cases hcr : env.createOk = true
        · by_cases hv2 : name ∈ env.volumes2
          · refine Or.inr (Or.inr (Or.inr (Or.inl
              ⟨hc', hv, ht', hcr, hv2, ?_⟩)))
            simp [volume_present, hc', hv, ht', hcr, hv2]
          · refine Or.inr (Or.inr (Or.inr (Or.inr (Or.inl
              ⟨hc', hv, ht', hcr, hv2, ?_⟩))))
            simp [volume_present, hc', hv, ht', hcr, hv2]
        · have hcr' : env.createOk = false := by simp_all
          refine Or.inr (Or.inr (Or.inl ⟨hc', hv, ht', hcr', ?_⟩))
          simp [volume_present, hc', hv, ht', hcr']

/-- When the info entry for the volume is present, the start phase never
escapes with an exception. -/
theorem vpStart_ok_of_infoSome (name : String) (start : Bool) (env : VolEnv)
    (ret : Ret) (log : List Call) (s : Int)
    (hinfo : env.infoStatus = some s) :
    ∃ r, (vpStart name start env ret log).1 = Except.ok r := by
  rcases vpStart_run name start env ret log with
    ⟨_, heq⟩ | ⟨_, _, heq⟩ | ⟨_, _, hnone, _⟩ | ⟨_, _, _, heq⟩ |
    ⟨s2, _, _, _, _, _, heq⟩ | ⟨s2, _, _, _, _, _, heq⟩ <;>
    first
    | (rw [heq]; exact ⟨_, rfl⟩)
    | (rw [hinfo] at hnone; cases hnone)

set_option maxHeartbeats 2000000 in
/-- C4 amended: every error the reconcilers detect is returned inside the
`Result` dict, but two faults escape uncaught: `peered` propagates
`socket.gaierror` exactly when the hostname lookup fails, and
`volume_present` / `add_volume_bricks` propagate `KeyError` when a later
info query lacks the volume.  Whenever those lookups succeed, every call
returns a dict; `started` always returns one. -/
theorem fault_capture_amended :
    (∀ name env, env.resolve = none →
      (peered name env).1 = Except.error PyErr.gaierror)
  ∧ (∀ name env addr, env.resolve = some addr →
      ∃ r, (peered name env).1 = Except.ok r)
  ∧ (∀ name env, ∃ r, (started name env).1 = Except.ok r)
  ∧ (∀ name bricks stripe replica device_vg transport start force env
        status, env.infoStatus = some status →
      ∃ r, (volume_present name bricks stripe replica device_vg transport
          start force env).1 = Except.ok r)
  ∧ (∀ name bricks env newBricks, env.info2 = some newBricks →
      ∃ r, (add_volume_bricks name bricks env).1 = Except.ok r) := by
  refine ⟨?_, ?_, ?_, ?_, ?_⟩
  · intro name env hres
    simp [peered, hres]
  · intro name env addr hres
    simp only [peered, hres]
    split_ifs <;> exact ⟨_, rfl⟩
  · intro name env
    cases hinfo : env.infoStatus with
    | none => simp only [started, hinfo]; exact ⟨_, rfl⟩
    | some status =>
      simp only [started, hinfo]
      split_ifs <;> exact ⟨_, rfl⟩
  · intro name bricks stripe replica device_vg transport start force env
      status hinfo
    rcases volume_present_run name bricks stripe replica device_vg transport
        start force env with
      ⟨_, heq⟩ | ⟨_, _, _, heq⟩ | ⟨_, _, _, _, heq⟩ |
      ⟨_, _, _, _, _, heq⟩ | ⟨_, _, _, _, _, heq⟩ | ⟨_, _, heq⟩ <;>
      rw [heq] <;>
      first
      | exact ⟨_, rfl⟩
      | exact vpStart_ok_of_infoSome name start env _ _ status hinfo
  · intro name bricks env newBricks hinfo2
    cases hinfo : env.info1 with
    | none => simp only [add_volume_bricks, hinfo]; exact ⟨_, rfl⟩
    | some p =>
      obtain ⟨status, current⟩ := p
      simp only [add_volume_bricks, hinfo, hinfo2]
      split_ifs <;> exact ⟨_, rfl⟩

/-- Witness for C4 at concrete inputs: a hostname that fails to resolve
makes `peered` propagate `socket.gaierror`, while `started` on a missing
volume still returns a dict. -/
theorem fault_capture_witness :
    (peered "host9" ⟨none, [], [], true, false, []⟩).1
      = Except.error PyErr.gaierror
  ∧ ∃ r, (started "v9" ⟨none, false, false⟩).1 = Except.ok r :=
  ⟨fault_capture_amended.1 "host9" ⟨none, [], [], true, false, []⟩ rfl,
    fault_capture_amended.2.2.1 "v9" ⟨none, false, false⟩⟩

set_option maxHeartbeats 2000000 in
/-- C5 amended: `peered` does detect the convergence mismatch — when the
peer action reports success but the re-queried peer list lacks the name, it
returns `Failed` with empty changes and the "did not appear" comment.
`volume_present` performs no such check: when creation reports success but
the re-queried volume list lacks the volume and no start is requested, it
falls through to the final `ret["result"] = True` and returns a success
with empty changes and empty comment. -/
theorem convergence_mismatch_amended :
    (∀ name env addr, env.resolve = some addr → addr ∉ env.ipAddrs →
      name ∉ env.peers1 → check_name name = false → env.test = false →
      env.peerOk = true → name ∉ env.peers2 →
      (retOf (peered name env)).map Ret.status = some Status.Failed
    ∧ (retOf (peered name env)).map Ret.changes = some Changes.empty
    ∧ (retOf (peered name env)).map Ret.comment
        = some ("Host " ++ name ++
            " was successfully peered but did not appear in the list of peers"))
  ∧ (∀ name bricks stripe replica device_vg transport force env,
      check_name name = false → name ∉ env.volumes1 → env.test = false →
      env.createOk = true → name ∉ env.volumes2 →
      (retOf (volume_present name bricks stripe replica device_vg transport
          false force env)).map Ret.status = some Status.Unchanged
    ∧ (retOf (volume_present name bricks stripe replica device_vg transport
          false force env)).map Ret.result = some (some true)
    ∧ (retOf (volume_present name bricks stripe replica device_vg transport
          false force env)).map Ret.comment = some "") := by
  constructor
  · intro name env addr hres hip hp1 hcheck htest hpok hp2
    simp [peered, hres, hip, hp1, hcheck, htest, hpok, hp2, retOf,
      Ret.status, mkRet]
  · intro name bricks stripe replica device_vg transport force env hcheck
      hvol htest hcr hv2
    rcases volume_present_run name bricks stripe replica device_vg transport
        false force env with
      ⟨h1, _⟩ | ⟨_, _, h3, _⟩ | ⟨_, _, _, h4, _⟩ |
      ⟨_, _, _, _, h5, _⟩ | ⟨_, _, _, _, _, heq⟩ | ⟨_, h2, _⟩
    · rw [hcheck] at h1; cases h1
    · rw [htest] at h3; cases h3
    · rw [hcr] at h4; cases h4
    · exact absurd h5 hv2
    · rw [heq]
      simp [vpStart, retOf, Ret.status, mkRet]
    · exact absurd h2 hvol

/-- Witness for C5 at a concrete input: peer `p3` resolves, is not local,
is absent from both peer lists although the peer action reported success,
and `peered` returns `Failed` with empty changes. -/
theorem convergence_mismatch_witness :
    (retOf (peered "p3" ⟨some "3.3.3.3", [], [], false, true, []⟩)).map
        Ret.status = some Status.Failed
  ∧ (retOf (peered "p3" ⟨some "3.3.3.3", [], [], false, true, []⟩)).map
        Ret.changes = some Changes.empty := by
  have h := convergence_mismatch_amended.1 "p3"
    ⟨some "3.3.3.3", [], [], false, true, []⟩ "3.3.3.3" rfl
    (by simp) (by simp) rfl rfl rfl (by simp)
  exact ⟨h.1, h.2.1⟩

set_option maxHeartbeats 2000000 in
/-- C6 amended: `peered` and `add_volume_bricks` return `Converged` only
with a read of live state after their mutating action, and so does the
creation phase of `volume_present` (its `Converged` with `start = false`
follows the volume-list re-query).  The start phases have no confirming
re-query: whenever `started` or `volume_present` invokes the start action,
the call log ends with that action and nothing is read afterwards. -/
theorem requery_before_converged_amended :
    (∀ name env r, (peered name env).1 = .ok r →
      r.status = Status.Converged →
      confirmedByRequery (peered name env).2 = true)
  ∧ (∀ name bricks env r, (add_volume_bricks name bricks env).1 = .ok r →
      r.status = Status.Converged →
      confirmedByRequery (add_volume_bricks name bricks env).2 = true)
  ∧ (∀ name bricks stripe replica device_vg transport force env r,
      (volume_present name bricks stripe replica device_vg transport false
          force env).1 = .ok r →
      r.status = Status.Converged →
      confirmedByRequery (volume_present name bricks stripe replica
          device_vg transport false force env).2 = true)
  ∧ (∀ name env, Call.startVolume name ∈ (started name env).2 →
      confirmedByRequery (started name env).2 = false)
  ∧ (∀ name bricks stripe replica device_vg transport start force env,
      Call.startVolume name ∈ (volume_present name bricks stripe replica
          device_vg transport start force env).2 →
      confirmedByRequery (volume_present name bricks stripe replica
          device_vg transport start force env).2 = false) := by
  refine ⟨?_, ?_, ?_, ?_, ?_⟩
  · intro name env r h hst
    cases hres : env.resolve with
    | none => simp [peered, hres] at h
    | some addr =>
      simp only [peered, hres] at h ⊢
      split_ifs at h ⊢ <;>
        first
        | rfl
        | (simp only [Except.ok.injEq] at h; subst h;
           simp [Ret.status, mkRet] at hst)
  · intro name bricks env r h hst
    cases hinfo : env.info1 with
    | none =>
      simp only [add_volume_bricks, hinfo] at h
      simp only [Except.ok.injEq] at h; subst h
      simp [Ret.status, mkRet] at hst
    | some p =>
      obtain ⟨status, current⟩ := p
      simp only [add_volume_bricks, hinfo] at h ⊢
      split_ifs at h ⊢
      case _ => simp only [Except.ok.injEq] at h; subst h
                simp [Ret.status, mkRet] at hst
      case _ => simp only [Except.ok.injEq] at h; subst h
                simp [Ret.status, mkRet] at hst
      case _ =>
        cases hinfo2 : env.info2 with
        | none => rw [hinfo2] at h; cases h
        | some newBricks => rfl
      case _ => simp only [Except.ok.injEq] at h; subst h
                simp [Ret.status, mkRet] at hst
  · intro name bricks stripe replica device_vg transport force env r h hst
    rcases volume_present_run name bricks stripe replica device_vg transport
        false force env with
      ⟨_, heq⟩ | ⟨_, _, _, heq⟩ | ⟨_, _, _, _, heq⟩ |
      ⟨_, _, _, _, _, heq⟩ | ⟨_, _, _, _, _, heq⟩ | ⟨_, _, heq⟩ <;>
      rw [heq] at h ⊢ <;>
      simp only [vpStart, if_neg Bool.false_ne_true] at h ⊢ <;>
      first
      | rfl
      | (simp only [Except.ok.injEq] at h; subst h;
         simp [Ret.status, mkRet] at hst)
  · intro name env h
    cases hinfo : env.infoStatus with
    | none => simp [started, hinfo] at h
    | some status =>
      simp only [started, hinfo] at h ⊢
      split_ifs at h ⊢ <;> first | rfl | simp at h
  · intro name bricks stripe replica device_vg transport start force env h
    rcases volume_present_run name bricks stripe replica device_vg transport
        start force env with
      ⟨_, heq⟩ | ⟨_, _, _, heq⟩ | ⟨_, _, _, _, heq⟩ |
      ⟨_, _, _, _, _, heq⟩ | ⟨_, _, _, _, _, heq⟩ | ⟨_, _, heq⟩
    · rw [heq] at h; simp at h
    · rw [heq] at h; simp at h
    · rw [heq] at h; simp at h
    · rw [heq] at h ⊢
      rcases vpStart_run name start env
          { mkRet name with
              changes := .lists env.volumes1 env.volumes2,
              comment := "Volume " ++ name ++ " is created" }
          [.listVolumes, .createVolume name bricks stripe replica device_vg
            transport start force, .listVolumes] with
        ⟨_, heq2⟩ | ⟨_, _, heq2⟩ | ⟨_, _, _, heq2⟩ |
        ⟨_, _, _, heq2⟩ | ⟨_, _, _, _, _, _, heq2⟩ |
        ⟨_, _, _, _, _, _, heq2⟩ <;>
        rw [heq2] at h ⊢ <;> first | rfl | simp at h
    · rw [heq] at h ⊢
      rcases vpStart_run name start env (mkRet name)
          [.listVolumes, .createVolume name bricks stripe replica device_vg
            transport start force, .listVolumes] with
        ⟨_, heq2⟩ | ⟨_, _, heq2⟩ | ⟨_, _, _, heq2⟩ |
        ⟨_, _, _, heq2⟩ | ⟨_, _, _, _, _, _, heq2⟩ |
        ⟨_, _, _, _, _, _, heq2⟩ <;>
        rw [heq2] at h ⊢ <;> first | rfl | simp at h
    · rw [heq] at h ⊢
      rcases vpStart_run name start env
          { mkRet name with
              comment := "Volume " ++ name ++ " already exists" }
          [.listVolumes] with
        ⟨_, heq2⟩ | ⟨_, _, heq2⟩ | ⟨_, _, _, heq2⟩ |
        ⟨_, _, _, heq2⟩ | ⟨_, _, _, _, _, _, heq2⟩ |
        ⟨_, _, _, _, _, _, heq2⟩ <;>
        rw [heq2] at h ⊢ <;> first | rfl | simp at h

/-- Witness for C6 at a concrete input: the `Converged` run of `peered`
(peer `p2` added and then seen in the second peer-list query) has a query
after its last action in the call log. -/
theorem requery_before_converged_witness :
    confirmedByRequery
      (peered "p2" ⟨some "2.2.2.2", ["1.1.1.1"], [], false, true,
        ["p2"]⟩).2 = true :=
  requery_before_converged_amended.1 "p2"
    ⟨some "2.2.2.2", ["1.1.1.1"], [], false, true, ["p2"]⟩
    { name := "p2", changes := Changes.lists [] ["p2"],
      change := Changes.empty, comment := "Host p2 successfully peered",
      result := some true } rfl rfl

set_option maxHeartbeats 1000000 in
/-- C7 amended: `volume_present` does validate before any query — on a
malformed name it returns the validation `Failed` with an empty call log.
`peered` validates only after the hostname resolution, the local-address
query and the peer-list query; its validation `Failed` is reached with
three reads already performed (though still no action), and a malformed
name that is already in the peer list returns `Unchanged` without any
validation failure at all. -/
theorem validation_order_amended :
    (∀ name bricks stripe replica device_vg transport start force env,
      check_name name = true →
      volume_present name bricks stripe replica device_vg transport start
          force env
        = (.ok { mkRet name with
                  comment := "Invalid characters in volume name." }, []))
  ∧ (∀ name env addr, check_name name = true → env.resolve = some addr →
      addr ∉ env.ipAddrs → name ∉ env.peers1 →
      peered name env
        = (.ok { mkRet name with
                  comment := "Invalid characters in peer name." },
            [.gethostbyname name, .ipAddrs, .listPeers]))
  ∧ (∀ name env addr, env.resolve = some addr → addr ∉ env.ipAddrs →
      name ∈ env.peers1 →
      (retOf (peered name env)).map Ret.status = some Status.Unchanged) := by
  refine ⟨?_, ?_, ?_⟩
  · intro name bricks stripe replica device_vg transport start force env
      hcheck
    simp [volume_present, hcheck]
  · intro name env addr hcheck hres hip hp1
    simp [peered, hres, hip, hp1, hcheck]
  · intro name env addr hres hip hp1
    simp [peered, hres, hip, hp1, retOf, Ret.status, mkRet]

/-- Witness for C7 at a concrete input: the malformed volume name
`bad!name` makes `volume_present` return the validation failure with an
empty call log. -/
theorem validation_order_witness :
    volume_present "bad!name" [] false false false "tcp" false false
        ⟨[], false, false, [], none, false⟩
      = (.ok { mkRet "bad!name" with
                comment := "Invalid characters in volume name." }, []) :=
  validation_order_amended.1 "bad!name" [] false false false "tcp" false
    false ⟨[], false, false, [], none, false⟩ rfl

set_option maxHeartbeats 1000000 in
/-- C8 amended: in the start phase of `volume_present` the dry-run branch
is taken before the already-started check, so under dry-run an existing,
already started volume still yields `WouldChange` with "will be started"
and no status query.  Outside dry-run, the already-started check finalizes
with "and is started": `Unchanged` when the volume pre-existed, `Converged`
when it was created in the same call. -/
theorem start_phase_order_amended :
    (∀ name bricks stripe replica device_vg transport force env,
      check_name name = false → name ∈ env.volumes1 → env.test = true →
      (retOf (volume_present name bricks stripe replica device_vg transport
          true force env)).map Ret.status = some Status.WouldChange
    ∧ (retOf (volume_present name bricks stripe replica device_vg transport
          true force env)).map Ret.comment
        = some ("Volume " ++ name ++ " already exists" ++
            " and will be started")
    ∧ Call.info ∉ (volume_present name bricks stripe replica device_vg
          transport true force env).2)
  ∧ (∀ name bricks stripe replica device_vg transport force env,
      check_name name = false → name ∈ env.volumes1 → env.test = false →
      env.infoStatus = some 1 →
      (retOf (volume_present name bricks stripe replica device_vg transport
          true force env)).map Ret.status = some Status.Unchanged
    ∧ (retOf (volume_present name bricks stripe replica device_vg transport
          true force env)).map Ret.comment
        = some ("Volume " ++ name ++ " already exists" ++
            " and is started"))
  ∧ (∀ name bricks stripe replica device_vg transport force env,
      check_name name = false → name ∉ env.volumes1 → env.test = false →
      env.createOk = true → name ∈ env.volumes2 → env.infoStatus = some 1 →
      (retOf (volume_present name bricks stripe replica device_vg transport
          true force env)).map Ret.status = some Status.Converged
    ∧ (retOf (volume_present name bricks stripe replica device_vg transport
          true force env)).map Ret.comment
        = some ("Volume " ++ name ++ " is created" ++ " and is started")) := by
  refine ⟨?_, ?_, ?_⟩
  · intro name bricks stripe replica device_vg transport force env hcheck
      hvol htest
    refine ⟨?_, ?_, ?_⟩ <;>
      simp [volume_present, vpStart, hcheck, hvol, htest, retOf, Ret.status,
        mkRet]
  · intro name bricks stripe replica device_vg transport force env hcheck
      hvol htest hinfo
    refine ⟨?_, ?_⟩ <;>
      simp [volume_present, vpStart, hcheck, hvol, htest, hinfo, retOf,
        Ret.status, mkRet]
  · intro name bricks stripe replica device_vg transport force env hcheck
      hvol htest hcr hv2 hinfo
    refine ⟨?_, ?_⟩ <;>
      simp [volume_present, vpStart, hcheck, hvol, htest, hcr, hv2, hinfo,
        retOf, Ret.status, mkRet]

/-- Witness for C8 at a concrete input: volume `v2` already exists and its
status query would report it started, yet under dry-run `volume_present`
reports `WouldChange` "will be started"; outside dry-run the same state
yields `Unchanged` "and is started". -/
theorem start_phase_order_witness :
    (retOf (volume_present "v2" [] false false false "tcp" true false
        ⟨["v2"], true, false, [], some 1, false⟩)).map Ret.status
      = some Status.WouldChange
  ∧ (retOf (volume_present "v2" [] false false false "tcp" true false
        ⟨["v2"], false, false, [], some 1, false⟩)).map Ret.status
      = some Status.Unchanged := by
  have h1 := start_phase_order_amended.1 "v2" [] false false false "tcp"
    false ⟨["v2"], true, false, [], some 1, false⟩ rfl (by simp) rfl
  have h2 := start_phase_order_amended.2.1 "v2" [] false false false "tcp"
    false ⟨["v2"], false, false, [], some 1, false⟩ rfl (by simp) rfl rfl
  exact ⟨h1.1, h2.1⟩

end Gluster
